import Mathlib

/-! Shallow embedding of the iterative research-assistant control loop
implemented in `run.py` and `stream.py`: the session state record, the four
step functions (research, summarize, critique, human feedback), the
character-level similarity metric used for stagnation detection, and the
routing function of the loop controller. -/

/-- ASCII whitespace set stripped by Python str.strip (Unicode-only space
characters are not modelled; no string in this development contains them). -/
def pyIsSpace (c : Char) : Bool :=
  c == ' ' || c == '\t' || c == '\n' || c == '\r' || c == '\x0b' || c == '\x0c'

/-- Python str.strip(): drop leading and trailing whitespace. -/
def pyStrip (s : String) : String :=
  String.mk (((s.data.dropWhile pyIsSpace).reverse.dropWhile pyIsSpace).reverse)

/-- Python str.lower(), modelled on ASCII letters. -/
def toLowerStr (s : String) : String :=
  String.mk (s.data.map Char.toLower)

/-- Boolean list-prefix test. -/
def isPrefixL : List Char → List Char → Bool
  | [], _ => true
  | _ :: _, [] => false
  | a :: as, b :: bs => a == b && isPrefixL as bs

/-- Python str.startswith. -/
def startsWithStr (s pre : String) : Bool :=
  isPrefixL pre.data s.data

/-- Boolean substring test on character lists. -/
def isSubL (p : List Char) : List Char → Bool
  | [] => p.isEmpty
  | c :: rest => isPrefixL p (c :: rest) || isSubL p rest

/-- Python `pat in s` substring test. -/
def containsStr (s pat : String) : Bool :=
  isSubL pat.data s.data

/-- Python slicing s[:n]. -/
def take_chars (n : Nat) (s : String) : String :=
  String.mk (s.data.take n)

/-- Python str.split() with no argument: split on whitespace runs. -/
def splitWhitespace (s : String) : List String :=
  (s.split pyIsSpace).filter (fun w => w != "")

/-! Embedding of difflib.SequenceMatcher(None, a, b).ratio() over character
lists, as used by `is_similar` in run.py.  The autojunk heuristic (popular
elements removed from the index when len(b) >= 200) is included. -/

/-- Index of positions of a character in `b` (difflib's b2j), with the
autojunk "popular element" rule applied. -/
def b2j (b : List Char) (c : Char) : List Nat :=
  if 200 ≤ b.length ∧ b.length / 100 + 1 < b.count c then []
  else (List.range b.length).filter (fun j => decide (b.getD j ' ' = c))

/-- Best match found so far in find_longest_match. -/
structure FLMState where
  besti : Nat
  bestj : Nat
  bestsize : Nat
deriving DecidableEq

/-- Inner loop of find_longest_match over the position list of a[i] in b;
returns the updated best match and the new run-length table. -/
def flmInner (blo bhi i : Nat) (j2len : Nat → Nat) :
    List Nat → FLMState → (Nat → Nat) → FLMState × (Nat → Nat)
  | [], st, nj => (st, nj)
  | j :: rest, st, nj =>
    if j < blo then flmInner blo bhi i j2len rest st nj
    else if bhi ≤ j then (st, nj)
    else
      let k := (if j = 0 then 0 else j2len (j - 1)) + 1
      let nj1 : Nat → Nat := fun x => if x = j then k else nj x
      let st1 : FLMState :=
        if st.bestsize < k then ⟨i + 1 - k, j + 1 - k, k⟩ else st
      flmInner blo bhi i j2len rest st1 nj1

/-- Outer loop of find_longest_match over i in range(alo, ahi). -/
def flmOuter (a : List Char) (bj : Char → List Nat) (blo bhi : Nat) :
    List Nat → (Nat → Nat) → FLMState → FLMState
  | [], _, st => st
  | i :: is, j2len, st =>
    let p := flmInner blo bhi i j2len (bj (a.getD i ' ')) st (fun _ => 0)
    flmOuter a bj blo bhi is p.2 p.1

/-- Backward extension of the best block (the non-junk extension loop;
the junk set is empty since isjunk=None). -/
def flmExtBack (a b : List Char) (alo blo : Nat) : Nat → FLMState → FLMState
  | 0, st => st
  | fuel + 1, st =>
    if alo < st.besti ∧ blo < st.bestj ∧
        a.getD (st.besti - 1) ' ' = b.getD (st.bestj - 1) ' ' then
      flmExtBack a b alo blo fuel ⟨st.besti - 1, st.bestj - 1, st.bestsize + 1⟩
    else st

/-- Forward extension of the best block. -/
def flmExtFwd (a b : List Char) (ahi bhi : Nat) : Nat → FLMState → FLMState
  | 0, st => st
  | fuel + 1, st =>
    if st.besti + st.bestsize < ahi ∧ st.bestj + st.bestsize < bhi ∧
        a.getD (st.besti + st.bestsize) ' ' = b.getD (st.bestj + st.bestsize) ' ' then
      flmExtFwd a b ahi bhi fuel ⟨st.besti, st.bestj, st.bestsize + 1⟩
    else st

/-- difflib find_longest_match on the slice a[alo:ahi] / b[blo:bhi]. -/
def find_longest_match (a b : List Char) (bj : Char → List Nat)
    (alo ahi blo bhi : Nat) : FLMState :=
  let st1 := flmOuter a bj blo bhi (List.range' alo (ahi - alo)) (fun _ => 0) ⟨alo, blo, 0⟩
  let st2 := flmExtBack a b alo blo st1.besti st1
  flmExtFwd a b ahi bhi ahi st2

/-- Total size of all matching blocks (the recursive split of
get_matching_blocks; the fuel bounds the recursion depth, which shrinks the
a-interval at every level, so a.length + b.length + 1 is always enough). -/
def matchedAux (a b : List Char) (bj : Char → List Nat) :
    Nat → Nat → Nat → Nat → Nat → Nat
  | 0, _, _, _, _ => 0
  | fuel + 1, alo, ahi, blo, bhi =>
    let m := find_longest_match a b bj alo ahi blo bhi
    if m.bestsize = 0 then 0
    else
      matchedAux a b bj fuel alo m.besti blo m.bestj + m.bestsize +
        matchedAux a b bj fuel (m.besti + m.bestsize) ahi (m.bestj + m.bestsize) bhi

/-- Sum of sizes of the matching blocks of a and b. -/
def matched (a b : List Char) : Nat :=
  matchedAux a b (b2j b) (a.length + b.length + 1) 0 a.length 0 b.length

/-- difflib ratio(): 2*M / (len a + len b), and 1 when both are empty,
computed exactly over the rationals. -/
def ratioQ (a b : List Char) : ℚ :=
  if a.length + b.length = 0 then 1
  else mkRat (2 * matched a b) (a.length + b.length)

/-- is_similar from run.py: false when either string is empty (falsy),
otherwise the sequence-matcher ratio of the stripped strings compared with
the threshold (the call site uses the default threshold 0.75 = 3/4). -/
def is_similar (a b : String) (threshold : ℚ) : Bool :=
  if a == "" || b == "" then false
  else decide (threshold ≤ ratioQ (pyStrip a).data (pyStrip b).data)

example : is_similar "abab" "abab" (mkRat 3 4) = true := by decide
example : is_similar "abcdefgh" "ijklmnop" (mkRat 3 4) = false := by decide
example : is_similar "" "x" (mkRat 3 4) = false := by decide
example : is_similar "hello world" "hello swirl" (mkRat 3 4) = true := by decide

/-! The session state record (GraphState in run.py).  The Python TypedDict
field _critic_recommendation is rendered without the leading underscore. -/

/-- Session state threaded through every node of the graph. -/
structure GraphState where
  query : String
  raw_content : String
  summary : String
  previous_summary : String
  decision : String
  loop_count : Nat
  research_count : Nat
  summarize_count : Nat
  critic_recommendation : String
deriving DecidableEq

/-- Initial state built in main() for a fresh query. -/
def initState (q : String) : GraphState :=
  { query := q, raw_content := "", summary := "", previous_summary := "",
    decision := "", loop_count := 0, research_count := 0, summarize_count := 0,
    critic_recommendation := "" }

/-! Research step (run_research in run.py).  The two external capabilities
(web search and the fallback generation model) and the outer exception
handler are oracles supplied by the environment. -/

/-- The search query string sent to the web-search tool: a single fixed
phrasing derived from the query alone. -/
def research_search_query (q : String) : String :=
  q ++ " basics explanation"

/-- Placeholder produced once the research attempt limit is passed. -/
def attempt_limit_placeholder (q : String) : String :=
  "Research attempt limit reached for query: " ++ q ++ "."

/-- Placeholder produced when the fallback generation model returns short
or empty content. -/
def limited_info_placeholder (q : String) : String :=
  "Limited information available for \x27" ++ q ++
    "\x27. This may be a very specialized or emerging topic."

/-- Placeholder produced when invoking the fallback generation model raises. -/
def research_difficulties_placeholder (q e : String) : String :=
  "Research encountered difficulties for \x27" ++ q ++ "\x27. Error: " ++ e

/-- Placeholder produced when the assembled result is still under 50 chars. -/
def minimal_info_placeholder (q : String) : String :=
  "Minimal information available for \x27" ++ q ++
    "\x27. This could indicate a very specialized topic or technical issues."

/-- Placeholder produced by the outer exception handler of the research step. -/
def research_error_placeholder (q e : String) : String :=
  "Research error for \x27" ++ q ++ "\x27: " ++ e

/-- External environment of one research step: the outer exception (if any),
whether a search tool was configured, the search capability (none models a
raised exception or falsy result handling below), and the fallback
generation call (error carries the exception text). -/
structure ResearchEnv where
  outer_exc : Option String
  has_search_tool : Bool
  search : String → Option String
  fallback : Except String String

/-- Fallback tier of the research step: generation model, then placeholders. -/
def fallbackResult (fb : Except String String) (query : String) : String :=
  match fb with
  | .ok content =>
    if content ≠ "" ∧ 100 < (pyStrip content).length then
      "Knowledge base information for \x27" ++ query ++ "\x27:\n\n" ++ content
    else limited_info_placeholder query
  | .error e => research_difficulties_placeholder query e

/-- run_research from run.py. -/
def run_research (env : ResearchEnv) (s : GraphState) : GraphState :=
  match env.outer_exc with
  | some msg =>
    { s with raw_content := research_error_placeholder s.query msg,
             research_count := s.research_count + 1,
             decision := "end" }
  | none =>
    let query := s.query
    let research_count := s.research_count + 1
    let result : String :=
      if 3 < research_count then attempt_limit_placeholder query
      else
        let r0 : Option String :=
          if env.has_search_tool then
            match env.search (research_search_query query) with
            | some sr =>
              if sr ≠ "" ∧ 50 < sr.length then
                some ("Web search results for \x27" ++ query ++ "\x27:\n\n" ++
                  take_chars 2000 sr)
              else none
            | none => none
          else none
        let r1 : String :=
          match r0 with
          | some r => if r.length < 100 then fallbackResult env.fallback query else r
          | none => fallbackResult env.fallback query
        if r1 = "" ∨ r1.length < 50 then minimal_info_placeholder query else r1
    { s with raw_content := result,
             research_count := research_count,
             decision := "" }

/-! Summarization step (summarize in run.py).  The retry loop over the
generation model is driven by a list of per-attempt outcomes. -/

/-- Error-content test applied to raw_content before generation. -/
def is_error_content (content : String) : Bool :=
  startsWithStr content "Research error" ||
  startsWithStr content "Research encountered" ||
  startsWithStr content "Minimal information" ||
  decide ((pyStrip content).length < 100)

/-- Fixed low-confidence summary used when raw_content is error-like. -/
def low_confidence_summary (q : String) : String :=
  "Research on \x27" ++ q ++
    "\x27 was limited. The topic may require specialized sources or more specific search terms. Available information indicates this is related to " ++
    toLowerStr q ++ " but detailed coverage was not possible."

/-- Outcome of the bounded retry loop around the generation model. -/
inductive GenOutcome where
  | success (c : String)
  | exhausted
  | raised
deriving DecidableEq

/-- The retry loop of summarize: each entry is one attempt (some content,
or none for a raised call); a raise on the final attempt propagates, short
content just moves to the next attempt. -/
def summarizeAttempts : List (Option String) → GenOutcome
  | [] => .exhausted
  | some r :: rest =>
    let c := pyStrip r
    if c ≠ "" ∧ 50 < c.length then .success c else summarizeAttempts rest
  | [none] => .raised
  | none :: rest => summarizeAttempts rest

/-- Length check applied after the inner try of summarize succeeds. -/
def brief_note_check (query fs : String) : String :=
  if fs.length < 50 then
    "Brief summary for \x27" ++ query ++ "\x27: " ++ fs ++
      "\n\nNote: Summary is limited due to source material constraints."
  else fs

/-- summarize from run.py. -/
def summarize (gens : List (Option String)) (s : GraphState) : GraphState :=
  let content := s.raw_content
  let query := s.query
  let current_summary := s.summary
  let summarize_count := s.summarize_count + 1
  let final_summary : String :=
    if 3 < summarize_count then
      if current_summary ≠ "" then current_summary
      else "Maximum summarization attempts reached."
    else if is_error_content content then low_confidence_summary query
    else
      match summarizeAttempts gens with
      | .success c => brief_note_check query c
      | .exhausted =>
        let sentences := ((content.replace "\n" " ").splitOn ". ").take 3
        let basic_content := String.intercalate ". " sentences
        brief_note_check query
          ("Summary of " ++ query ++ ": " ++ take_chars 400 basic_content ++ "...")
      | .raised =>
        if current_summary ≠ "" then current_summary
        else
          let words := (splitWhitespace content).take 100
          "Basic information about " ++ query ++ ": " ++
            String.intercalate " " words ++ "..."
  { s with previous_summary := s.summary,
           summary := final_summary,
           summarize_count := summarize_count,
           decision := "" }

/-! Critique step (evaluate in run.py).  The classification call to the
generation model is an oracle: some response text, or none when it raises. -/

/-- Keyword parse of the critic model response, in fixed priority order. -/
def parse_llm_decision (d : String) : String :=
  if containsStr d "reresearch" then "reresearch"
  else if containsStr d "resummarize" then "resummarize"
  else if containsStr d "end" then "end"
  else "resummarize"

/-- Failure-indicator keywords of the conservative fallback heuristic. -/
def failure_indicators : List String :=
  ["failed", "error", "insufficient", "limited"]

/-- evaluate from run.py. -/
def evaluate (llm : Option String) (s : GraphState) : GraphState :=
  let loop_count := s.loop_count + 1
  match llm with
  | some resp =>
    let llm_decision := toLowerStr (pyStrip resp)
    let od0 := parse_llm_decision llm_decision
    let original_decision :=
      if od0 = "resummarize" ∧ s.previous_summary ≠ "" ∧
          is_similar s.summary s.previous_summary (mkRat 3 4) = true then
        if s.research_count < 4 then "reresearch" else "end"
      else od0
    let decision :=
      if loop_count < 10 ∧
          (original_decision = "reresearch" ∨ original_decision = "resummarize") then
        original_decision
      else "human_feedback"
    { s with decision := decision, loop_count := loop_count,
             critic_recommendation := original_decision }
  | none =>
    let lsum := toLowerStr s.summary
    let has_failure := failure_indicators.any (fun ind => containsStr lsum ind)
    let is_too_short := (pyStrip s.summary).length < 80
    let original_decision :=
      if has_failure = true ∧ s.research_count < 4 then "reresearch"
      else if is_too_short ∧ s.summarize_count < 4 then "resummarize"
      else "end"
    { s with decision := "human_feedback", loop_count := loop_count,
             critic_recommendation := original_decision }

/-! Escalation step.  run.py asks the operator in a terminal loop
(get_human_feedback); stream.py funnels web-form decisions through
handle_human_decision. -/

/-- One operator input in the terminal loop of get_human_feedback. -/
inductive HumanChoice where
  | accept
  | moreResearch
  | improveSummary
  | manual (ls : List String)
  | invalid
  | interrupt
deriving DecidableEq

/-- Trailing blank lines are popped from the manual input. -/
def dropTrailingBlanks (ls : List String) : List String :=
  (ls.reverse.dropWhile (fun l => pyStrip l == "")).reverse

/-- get_human_feedback from run.py, driven by the operator's successive
choices; a refused or invalid choice just re-prompts with unchanged state.
An exhausted choice list is read as the operator interrupting. -/
def get_human_feedback : List HumanChoice → GraphState → GraphState
  | [], s => { s with decision := "end", loop_count := s.loop_count + 1 }
  | c :: rest, s =>
    match c with
    | .accept => { s with decision := "end", loop_count := s.loop_count + 1 }
    | .moreResearch =>
      if 4 ≤ s.research_count then get_human_feedback rest s
      else { s with decision := "reresearch", loop_count := s.loop_count + 1 }
    | .improveSummary =>
      if 4 ≤ s.summarize_count then get_human_feedback rest s
      else { s with decision := "resummarize", loop_count := s.loop_count + 1 }
    | .manual ls =>
      let kept := dropTrailingBlanks ls
      if kept ≠ [] then
        { s with summary := String.intercalate "\n" kept,
                 decision := "end", loop_count := s.loop_count + 1 }
      else get_human_feedback rest s
    | .invalid => get_human_feedback rest s
    | .interrupt => { s with decision := "end", loop_count := s.loop_count + 1 }

/-- handle_human_decision from stream.py. -/
def handle_human_decision (s : GraphState) (decision manual_input : String) :
    GraphState :=
  if decision = "end" then { s with decision := "end" }
  else if decision = "reresearch" then
    if 4 ≤ s.research_count then { s with decision := "end" }
    else { s with decision := "reresearch" }
  else if decision = "resummarize" then
    if 4 ≤ s.summarize_count then { s with decision := "end" }
    else { s with decision := "resummarize" }
  else if decision = "manual" ∧ manual_input ≠ "" then
    { s with summary := manual_input, decision := "end" }
  else { s with decision := "end" }

/-! Loop controller: route_decision and the node graph of build_graph. -/

/-- Targets of the conditional edges (END is the langgraph terminal). -/
inductive Route where
  | researcher
  | summarizer
  | human_feedback
  | END
deriving DecidableEq

/-- route_decision from run.py. -/
def route_decision (s : GraphState) : Route :=
  if 10 ≤ s.loop_count then .END
  else if 4 ≤ s.research_count ∧ 4 ≤ s.summarize_count then .END
  else if s.decision = "end" then .END
  else if s.decision = "reresearch" ∧ s.research_count < 4 then .researcher
  else if s.decision = "resummarize" ∧ s.summarize_count < 4 then .summarizer
  else if s.decision = "human_feedback" then .human_feedback
  else .END

/-- Graph nodes, plus the terminal. -/
inductive GNode where
  | researcher
  | summarizer
  | critic
  | human_feedback
  | done
deriving DecidableEq

/-- External inputs consumed by whichever node runs in one step. -/
structure StepInput where
  research_env : ResearchEnv
  gens : List (Option String)
  llm : Option String
  choices : List HumanChoice

/-- Where a routing result lands. -/
def routeTarget : Route → GNode
  | .researcher => .researcher
  | .summarizer => .summarizer
  | .human_feedback => .human_feedback
  | .END => .done

/-- One transition of the compiled graph: researcher → summarizer → critic
are unconditional edges; critic and human_feedback route via route_decision. -/
def stepNode (inp : StepInput) : GNode × GraphState → GNode × GraphState
  | (.researcher, s) => (.summarizer, run_research inp.research_env s)
  | (.summarizer, s) => (.critic, summarize inp.gens s)
  | (.critic, s) =>
    let s1 := evaluate inp.llm s
    (routeTarget (route_decision s1), s1)
  | (.human_feedback, s) =>
    let s1 := get_human_feedback inp.choices s
    (routeTarget (route_decision s1), s1)
  | (.done, s) => (.done, s)

/-- Position weight of a node inside one loop iteration. -/
def nodeWeight : GNode → Nat
  | .researcher => 3
  | .summarizer => 2
  | .critic => 1
  | .human_feedback => 1
  | .done => 0

/-- Termination measure of the loop controller. -/
def loopMeasure (ns : GNode × GraphState) : Nat :=
  3 * (10 - ns.2.loop_count) + nodeWeight ns.1

/-- Run the graph for a bounded number of transitions, feeding each step
its own external input. -/
def runSteps (env : Nat → StepInput) : Nat → Nat → GNode × GraphState → GNode × GraphState
  | _, 0, ns => ns
  | k, fuel + 1, ns => runSteps env (k + 1) fuel (stepNode (env k) ns)

/-! Helper lemmas shared by the claim theorems. -/

theorem isPrefixL_append (p l t : List Char) (h : isPrefixL p l = true) :
    isPrefixL p (l ++ t) = true := by
  induction p generalizing l with
  | nil => rfl
  | cons a as ih =>
    cases l with
    | nil => simp [isPrefixL] at h
    | cons b bs =>
      simp only [isPrefixL, Bool.and_eq_true, beq_iff_eq] at h
      simp only [List.cons_append, isPrefixL, Bool.and_eq_true, beq_iff_eq]
      exact ⟨h.1, ih bs h.2⟩

theorem run_research_loop_count (e : ResearchEnv) (s : GraphState) :
    (run_research e s).loop_count = s.loop_count := by
  cases h : e.outer_exc <;> simp [run_research, h]

theorem summarize_loop_count (g : List (Option String)) (s : GraphState) :
    (summarize g s).loop_count = s.loop_count := rfl

theorem evaluate_loop_count (l : Option String) (s : GraphState) :
    (evaluate l s).loop_count = s.loop_count + 1 := by
  cases l <;> rfl

theorem get_human_feedback_loop_count (cs : List HumanChoice) (s : GraphState) :
    (get_human_feedback cs s).loop_count = s.loop_count + 1 := by
  induction cs with
  | nil => rfl
  | cons c rest ih =>
    cases c with
    | accept => rfl
    | moreResearch =>
      simp only [get_human_feedback]
      split
      · exact ih
      · rfl
    | improveSummary =>
      simp only [get_human_feedback]
      split
      · exact ih
      · rfl
    | manual ls =>
      simp only [get_human_feedback]
      split
      · rfl
      · exact ih
    | invalid => exact ih
    | interrupt => rfl

theorem get_human_feedback_previous_summary (cs : List HumanChoice) (s : GraphState) :
    (get_human_feedback cs s).previous_summary = s.previous_summary := by
  induction cs with
  | nil => rfl
  | cons c rest ih =>
    cases c with
    | accept => rfl
    | moreResearch =>
      simp only [get_human_feedback]
      split
      · exact ih
      · rfl
    | improveSummary =>
      simp only [get_human_feedback]
      split
      · exact ih
      · rfl
    | manual ls =>
      simp only [get_human_feedback]
      split
      · rfl
      · exact ih
    | invalid => exact ih
    | interrupt => rfl

theorem nodeWeight_le_three (n : GNode) : nodeWeight n ≤ 3 := by
  cases n <;> simp [nodeWeight]

theorem route_decision_loop_ge (s : GraphState) (h : 10 ≤ s.loop_count) :
    route_decision s = Route.END := by
  simp [route_decision, h]

theorem stepNode_measure_lt (inp : StepInput) (ns : GNode × GraphState)
    (h : ns.1 ≠ GNode.done) :
    loopMeasure (stepNode inp ns) < loopMeasure ns := by
  obtain ⟨n, s⟩ := ns
  cases n with
  | researcher =>
    simp only [stepNode, loopMeasure, nodeWeight, run_research_loop_count]
    omega
  | summarizer =>
    simp only [stepNode, loopMeasure, nodeWeight, summarize_loop_count]
    omega
  | critic =>
    simp only [stepNode, loopMeasure]
    rw [evaluate_loop_count]
    have hc : nodeWeight GNode.critic = 1 := rfl
    rw [hc]
    by_cases hL : s.loop_count < 10
    · have hw := nodeWeight_le_three (routeTarget (route_decision (evaluate inp.llm s)))
      omega
    · have hr : route_decision (evaluate inp.llm s) = Route.END := by
        apply route_decision_loop_ge
        rw [evaluate_loop_count]
        omega
      rw [hr]
      have h0 : nodeWeight (routeTarget Route.END) = 0 := rfl
      rw [h0]
      omega
  | human_feedback =>
    simp only [stepNode, loopMeasure]
    rw [get_human_feedback_loop_count]
    have hc : nodeWeight GNode.human_feedback = 1 := rfl
    rw [hc]
    by_cases hL : s.loop_count < 10
    · have hw := nodeWeight_le_three (routeTarget (route_decision (get_human_feedback inp.choices s)))
      omega
    · have hr : route_decision (get_human_feedback inp.choices s) = Route.END := by
        apply route_decision_loop_ge
        rw [get_human_feedback_loop_count]
        omega
      rw [hr]
      have h0 : nodeWeight (routeTarget Route.END) = 0 := rfl
      rw [h0]
      omega
  | done => exact absurd rfl h

theorem runSteps_of_done (env : Nat → StepInput) (fuel k : Nat)
    (ns : GNode × GraphState) (h : ns.1 = GNode.done) :
    runSteps env k fuel ns = ns := by
  induction fuel generalizing k ns with
  | zero => rfl
  | succ fuel ih =>
    obtain ⟨n, s⟩ := ns
    cases n with
    | done => exact ih (k + 1) (GNode.done, s) rfl
    | researcher => simp at h
    | summarizer => simp at h
    | critic => simp at h
    | human_feedback => simp at h

theorem runSteps_done_of_measure_le (env : Nat → StepInput) :
    ∀ (fuel k : Nat) (ns : GNode × GraphState), loopMeasure ns ≤ fuel →
      (runSteps env k fuel ns).1 = GNode.done := by
  intro fuel
  induction fuel with
  | zero =>
    intro k ns h
    have hw : nodeWeight ns.1 = 0 := by
      simp only [loopMeasure] at h
      omega
    have : ns.1 = GNode.done := by
      cases hns : ns.1 <;> rw [hns] at hw <;> simp [nodeWeight] at hw
    simpa [runSteps] using this
  | succ fuel ih =>
    intro k ns h
    by_cases hd : ns.1 = GNode.done
    · rw [runSteps_of_done env (fuel + 1) k ns hd]
      exact hd
    · have hlt := stepNode_measure_lt (env k) ns hd
      have : loopMeasure (stepNode (env k) ns) ≤ fuel := by omega
      exact ih (k + 1) (stepNode (env k) ns) this

theorem route_decision_caps (s : GraphState) (h1 : 4 ≤ s.research_count)
    (h2 : 4 ≤ s.summarize_count) : route_decision s = Route.END := by
  simp only [route_decision]
  split
  · rfl
  · rw [if_pos ⟨h1, h2⟩]

theorem route_decision_of_end (s : GraphState) (h : s.decision = "end") :
    route_decision s = Route.END := by
  simp only [route_decision]
  split_ifs <;> simp_all

theorem data_append_str (a b : String) : (a ++ b).data = a.data ++ b.data := by
  cases a
  cases b
  rfl

/-! Claim theorems. -/

/-- C3: for every stream of external inputs and every start configuration,
the loop controller reaches the terminal node within the loop measure (at
most 31 transitions from a fresh session at the researcher node); the
routing function is terminal whenever loop_count has reached 10 or both
attempt counters have reached 4; and every critique or escalation pass
increments loop_count by exactly one, so the loop cannot run forever. -/
theorem loop_controller_terminates :
    (∀ (env : Nat → StepInput) (ns : GNode × GraphState),
      (runSteps env 0 (loopMeasure ns) ns).1 = GNode.done) ∧
    (∀ (s : GraphState) (k : Nat),
      route_decision { s with loop_count := 10 + k } = Route.END) ∧
    (∀ (s : GraphState) (k m : Nat),
      route_decision
        { s with research_count := 4 + k, summarize_count := 4 + m } = Route.END) ∧
    (∀ (l : Option String) (s : GraphState),
      (evaluate l s).loop_count = s.loop_count + 1) ∧
    (∀ (cs : List HumanChoice) (s : GraphState),
      (get_human_feedback cs s).loop_count = s.loop_count + 1) := by
  refine ⟨?_, ?_, ?_, evaluate_loop_count, get_human_feedback_loop_count⟩
  · intro env ns
    exact runSteps_done_of_measure_le env (loopMeasure ns) 0 ns (le_refl _)
  · intro s k
    exact route_decision_loop_ge _ (by show 10 ≤ 10 + k; omega)
  · intro s k m
    exact route_decision_caps _ (by show 4 ≤ 4 + k; omega) (by show 4 ≤ 4 + m; omega)

/-- C1 counterexample: with an `end` classification, a small loop count, all
counters at zero and no stagnation, the critic's final decision is
human_feedback, not the terminal decision end. -/
theorem critic_end_forces_human_review_cex :
    (evaluate (some "end")
      { initState "gravity" with summary := "a clear and complete summary" }).decision
      = "human_feedback" ∧
    (evaluate (some "end")
      { initState "gravity" with summary := "a clear and complete summary" }).decision
      ≠ "end" ∧
    parse_llm_decision (toLowerStr (pyStrip "end")) = "end" ∧
    ({ initState "gravity" with
        summary := "a clear and complete summary" } : GraphState).loop_count + 1 < 10 := by
  refine ⟨?_, ?_, ?_, ?_⟩ <;> decide

/-- C1 (amended): when the critic classification is `end`, the loop count is
below the ceiling, the counters have not both reached their caps and no
stagnation condition holds, the final decision is the escalation decision
human_feedback — the `end` classification is recorded as the recommendation
but never passed through as the decision. -/
theorem critic_end_classification_escalates (s : GraphState) (r : String)
    (hparse : parse_llm_decision (toLowerStr (pyStrip r)) = "end")
    (hloop : s.loop_count + 1 < 10)
    (hcaps : ¬(4 ≤ s.research_count ∧ 4 ≤ s.summarize_count))
    (hstag : s.previous_summary = "" ∨
      is_similar s.summary s.previous_summary (mkRat 3 4) = false) :
    (evaluate (some r) s).decision = "human_feedback" ∧
    (evaluate (some r) s).critic_recommendation = "end" := by
  have hov : ¬(("end" : String) = "resummarize" ∧ s.previous_summary ≠ "" ∧
      is_similar s.summary s.previous_summary (mkRat 3 4) = true) := by
    intro h
    exact absurd h.1 (by decide)
  have hdec : ¬(s.loop_count + 1 < 10 ∧
      (("end" : String) = "reresearch" ∨ ("end" : String) = "resummarize")) := by
    rintro ⟨-, h | h⟩ <;> exact absurd h (by decide)
  simp only [evaluate, hparse, if_neg hov, if_neg hdec]
  exact ⟨trivial, trivial⟩

/-- C1 witness: the amended theorem applied at a concrete session. -/
theorem critic_end_classification_escalates_wit :
    (evaluate (some "end")
      { initState "gravity" with summary := "the summary text" }).decision
      = "human_feedback" ∧
    (evaluate (some "end")
      { initState "gravity" with summary := "the summary text" }).critic_recommendation
      = "end" :=
  critic_end_classification_escalates _ "end" (by decide) (by decide) (by decide)
    (Or.inl rfl)

/-- Concrete session used by the C2 counterexample: identical summaries and
the research attempt counter at its cap. -/
def stagnationCapState : GraphState :=
  { initState "gravity" with
      summary := "abab", previous_summary := "abab", research_count := 4 }

/-- C2 counterexample: with a resummarize classification, identical (hence
0.75-similar) summaries and research_count at its cap 4, the final decision
is human_feedback, not the stop decision end that the claim states. -/
theorem stagnation_at_research_cap_cex :
    is_similar "abab" "abab" (mkRat 3 4) = true ∧
    (evaluate (some "resummarize") stagnationCapState).decision = "human_feedback" ∧
    (evaluate (some "resummarize") stagnationCapState).decision ≠ "end" ∧
    (evaluate (some "resummarize") stagnationCapState).critic_recommendation = "end" := by
  refine ⟨?_, ?_, ?_, ?_⟩ <;> decide

/-- C2 (amended): when the classification is resummarize and the non-empty
summaries are at least 0.75-similar, the final decision is never
resummarize: it is reresearch when research_count is below its cap 4 and
the incremented loop count is below 10, and human_feedback (escalation)
otherwise — in particular at the research cap the recommendation is
recorded as end but the decision is human_feedback. -/
theorem stagnation_override_decision (s : GraphState) (r : String)
    (hs : s.summary ≠ "") (hp : s.previous_summary ≠ "")
    (hsim : is_similar s.summary s.previous_summary (mkRat 3 4) = true)
    (hparse : parse_llm_decision (toLowerStr (pyStrip r)) = "resummarize") :
    (evaluate (some r) s).decision ≠ "resummarize" ∧
    (evaluate (some r) s).decision =
      (if s.research_count < 4 ∧ s.loop_count + 1 < 10 then "reresearch"
       else "human_feedback") := by
  simp only [evaluate]
  rw [hparse]
  rcases Decidable.em (s.research_count < 4) with hr | hr <;>
    rcases Decidable.em (s.loop_count + 1 < 10) with hl | hl <;>
      simp [hp, hsim, hr, hl]

/-- Concrete session used by the C2 witness: identical non-empty summaries
with research budget remaining. -/
def stagnationFreshState : GraphState :=
  { initState "gravity" with summary := "abab", previous_summary := "abab" }

/-- C2 witness: the amended theorem applied with identical non-empty
summaries, research budget remaining and a small loop count. -/
theorem stagnation_override_decision_wit :
    (evaluate (some "resummarize") stagnationFreshState).decision ≠ "resummarize" ∧
    (evaluate (some "resummarize") stagnationFreshState).decision =
      (if stagnationFreshState.research_count < 4 ∧
          stagnationFreshState.loop_count + 1 < 10 then "reresearch"
       else "human_feedback") :=
  stagnation_override_decision stagnationFreshState "resummarize" (by decide)
    (by decide) (by decide) (by decide)

theorem summarize_cap_summary (gens : List (Option String)) (s : GraphState)
    (h : 3 ≤ s.summarize_count) :
    (summarize gens s).summary =
      (if s.summary ≠ "" then s.summary
       else "Maximum summarization attempts reached.") := by
  have hc : 3 < s.summarize_count + 1 := by omega
  simp only [summarize, if_pos hc]

/-- Concrete session used by the C4 counterexample and witness: a prior
summary present and the summarize attempt counter at the cap. -/
def cappedState : GraphState :=
  { initState "gravity" with summary := "the prior summary", summarize_count := 3 }

/-- C4 counterexample: at the cap the summarize step keeps the prior summary
but clears the decision to the empty string — it does not signal the stop
decision end. -/
theorem summarize_cap_decision_not_stop_cex :
    (summarize [] cappedState).decision = "" ∧
    (summarize [] cappedState).summary = "the prior summary" ∧
    ("" : String) ≠ "end" := by
  refine ⟨?_, ?_, ?_⟩ <;> decide

/-- C4 (amended): when the summarize attempt counter has already reached 3
(so this run is past the cap), the step returns the existing summary
unchanged (or the fixed limit-reached notice when none exists), moves the
old summary into previous_summary, increments the counter, and clears the
decision to the empty string rather than signalling stop; re-running the
step at the cap leaves the summary equal to its prior value. -/
theorem summarize_cap_idempotent (gens gens2 : List (Option String))
    (s : GraphState) (h : 3 ≤ s.summarize_count) :
    (summarize gens s).summary =
      (if s.summary ≠ "" then s.summary
       else "Maximum summarization attempts reached.") ∧
    (summarize gens s).decision = "" ∧
    (summarize gens s).previous_summary = s.summary ∧
    (summarize gens s).summarize_count = s.summarize_count + 1 ∧
    (summarize gens2 (summarize gens s)).summary = (summarize gens s).summary := by
  have h1 := summarize_cap_summary gens s h
  have hcount : (summarize gens s).summarize_count = s.summarize_count + 1 := rfl
  have h2 := summarize_cap_summary gens2 (summarize gens s) (by omega)
  refine ⟨h1, rfl, rfl, rfl, ?_⟩
  rw [h2, h1]
  by_cases hs : s.summary = "" <;> simp [hs]

/-- C4 witness: the amended theorem applied at the cap with a prior summary. -/
theorem summarize_cap_idempotent_wit :
    (summarize [] cappedState).summary =
      (if cappedState.summary ≠ "" then cappedState.summary
       else "Maximum summarization attempts reached.") ∧
    (summarize [] cappedState).decision = "" ∧
    (summarize [] cappedState).previous_summary = cappedState.summary ∧
    (summarize [] cappedState).summarize_count = cappedState.summarize_count + 1 ∧
    (summarize [] (summarize [] cappedState)).summary =
      (summarize [] cappedState).summary :=
  summarize_cap_idempotent [] [] cappedState (by decide)

/-- C5 (amended): the research step consults the search capability only at
the single fixed query phrasing research_search_query (the session keeps no
record of tried strategies and no phrasing rotation keyed by research_count
exists); each execution increments research_count and clears the decision. -/
theorem research_query_fixed :
    (∀ (oe : Option String) (hst : Bool) (f1 f2 : String → Option String)
        (fb : Except String String) (s : GraphState),
      f1 (research_search_query s.query) = f2 (research_search_query s.query) →
      run_research ⟨oe, hst, f1, fb⟩ s = run_research ⟨oe, hst, f2, fb⟩ s) ∧
    (∀ (hst : Bool) (f : String → Option String) (fb : Except String String)
        (s : GraphState),
      (run_research ⟨none, hst, f, fb⟩ s).research_count = s.research_count + 1 ∧
      (run_research ⟨none, hst, f, fb⟩ s).decision = "") := by
  constructor
  · intro oe hst f1 f2 fb s h
    cases oe with
    | some m => rfl
    | none => simp only [run_research, h]
  · intro hst f fb s
    exact ⟨rfl, rfl⟩

/-- A search answer long enough to be accepted by the research step. -/
def sample_search_result : String :=
  "Gravity is the universal attraction between masses, described by general relativity."

/-- A search capability that only answers the single fixed query phrasing
for the gravity session. -/
def gravitySearchEnv : ResearchEnv :=
  ⟨none, true,
    fun q => if q = research_search_query "gravity" then some sample_search_result
             else none,
    Except.error "generation model unavailable"⟩

set_option maxRecDepth 16384 in
/-- C5 counterexample: against a search capability that answers only the one
fixed phrasing, both the first and the second research attempts obtain the
full search result — the step issues the identical strategy on consecutive
attempts instead of selecting a not-yet-tried variation, and the session
state has no tried_strategies field to append to. -/
theorem research_strategy_constant_cex :
    (run_research gravitySearchEnv (initState "gravity")).raw_content =
      "Web search results for \x27gravity\x27:\n\n" ++ sample_search_result ∧
    (run_research gravitySearchEnv
      { initState "gravity" with research_count := 1 }).raw_content =
      "Web search results for \x27gravity\x27:\n\n" ++ sample_search_result ∧
    research_search_query "gravity" = "gravity basics explanation" := by
  refine ⟨?_, ?_, ?_⟩ <;> decide

/-- C5 witness: the amended theorem applied to two search capabilities that
agree at the fixed phrasing (one of them defined only there). -/
theorem research_query_fixed_wit :
    run_research gravitySearchEnv (initState "gravity") =
      run_research ⟨none, true, fun _ => some sample_search_result,
        Except.error "generation model unavailable"⟩ (initState "gravity") ∧
    (run_research ⟨none, true, fun _ => some sample_search_result,
        Except.error "generation model unavailable"⟩
      (initState "gravity")).research_count = 1 :=
  ⟨research_query_fixed.1 none true _ _ _ (initState "gravity") (by decide),
   (research_query_fixed.2 true (fun _ => some sample_search_result)
     (Except.error "generation model unavailable") (initState "gravity")).1⟩

/-- Concrete session used by the C6 counterexample: distinct summary and
previous_summary so the update discipline is observable. -/
def manualBaseState : GraphState :=
  { initState "gravity" with summary := "A", previous_summary := "B" }

/-- C6 counterexample: a manual human-supplied summary overwrites `summary`
without moving the old summary into previous_summary — afterwards
previous_summary still holds "B", not the pre-overwrite value "A", in both
the web-shell path and the terminal path. -/
theorem manual_summary_previous_not_updated_cex :
    (handle_human_decision manualBaseState "manual" "C").summary = "C" ∧
    (handle_human_decision manualBaseState "manual" "C").previous_summary = "B" ∧
    (handle_human_decision manualBaseState "manual" "C").previous_summary ≠ "A" ∧
    (get_human_feedback [HumanChoice.manual ["C"]] manualBaseState).summary = "C" ∧
    (get_human_feedback [HumanChoice.manual ["C"]]
      manualBaseState).previous_summary = "B" := by
  refine ⟨?_, ?_, ?_, ?_, ?_⟩ <;> decide

/-- C6 (amended): previous_summary receives the pre-overwrite summary only in
the summarize step; the escalation paths (terminal loop and web shell,
including manual human-supplied summaries) never update previous_summary. -/
theorem previous_summary_update_rule :
    (∀ (gens : List (Option String)) (s : GraphState),
      (summarize gens s).previous_summary = s.summary) ∧
    (∀ (cs : List HumanChoice) (s : GraphState),
      (get_human_feedback cs s).previous_summary = s.previous_summary) ∧
    (∀ (s : GraphState) (d m : String),
      (handle_human_decision s d m).previous_summary = s.previous_summary) := by
  refine ⟨fun gens s => rfl, get_human_feedback_previous_summary, ?_⟩
  intro s d m
  unfold handle_human_decision
  split_ifs <;> rfl

/-- Concrete session used by the C7 counterexample and witness: the research
attempt counter at its cap while escalation is pending. -/
def refusalState : GraphState :=
  { initState "gravity" with research_count := 4, decision := "human_feedback" }

/-- C7 counterexample: in the web shell, a reresearch request at the research
cap is not an unmutating re-prompt — handle_human_decision resolves the
session by setting decision to end, mutating the state. -/
theorem handle_reresearch_at_cap_mutates_cex :
    (handle_human_decision refusalState "reresearch" "").decision = "end" ∧
    refusalState.decision = "human_feedback" ∧
    handle_human_decision refusalState "reresearch" "" ≠ refusalState := by
  refine ⟨?_, ?_, ?_⟩ <;> decide

/-- C7 (amended): in the terminal escalation loop a MoreResearch choice at
the research cap is refused by re-prompting — processing the refused choice
equals processing the remaining choices on the unchanged state; in the web
shell handle_human_decision instead resolves a reresearch request at the cap
by setting the decision to end. -/
theorem escalation_refusal_behavior (s : GraphState) (rest : List HumanChoice)
    (h : 4 ≤ s.research_count) :
    get_human_feedback (HumanChoice.moreResearch :: rest) s =
      get_human_feedback rest s ∧
    (∀ m : String,
      handle_human_decision s "reresearch" m = { s with decision := "end" }) := by
  constructor
  · simp only [get_human_feedback]
    rw [if_pos h]
  · intro m
    simp [handle_human_decision, h]

/-- C7 witness: the amended theorem applied at the capped session, with an
accept choice following the refused one. -/
theorem escalation_refusal_behavior_wit :
    get_human_feedback [HumanChoice.moreResearch, HumanChoice.accept] refusalState =
      get_human_feedback [HumanChoice.accept] refusalState ∧
    handle_human_decision refusalState "reresearch" "" =
      { refusalState with decision := "end" } :=
  ⟨(escalation_refusal_behavior refusalState [HumanChoice.accept] (by decide)).1,
   (escalation_refusal_behavior refusalState [HumanChoice.accept] (by decide)).2 ""⟩

/-- C8: a non-empty manually supplied summary, submitted via the web shell
or as the lines entered in the terminal escalation loop, becomes the
session's summary verbatim, sets the decision to end, and the routing
function then returns the terminal state, so the reported final summary is
exactly the supplied text. -/
theorem manual_summary_roundtrip (s : GraphState) (t : String)
    (ls : List String) (ht : t ≠ "") (hls : dropTrailingBlanks ls ≠ []) :
    (handle_human_decision s "manual" t).summary = t ∧
    (handle_human_decision s "manual" t).decision = "end" ∧
    route_decision (handle_human_decision s "manual" t) = Route.END ∧
    (get_human_feedback [HumanChoice.manual ls] s).summary =
      String.intercalate "\n" (dropTrailingBlanks ls) ∧
    (get_human_feedback [HumanChoice.manual ls] s).decision = "end" ∧
    route_decision (get_human_feedback [HumanChoice.manual ls] s) = Route.END := by
  have hh : handle_human_decision s "manual" t =
      { s with summary := t, decision := "end" } := by
    simp [handle_human_decision, ht]
  have hg : (get_human_feedback [HumanChoice.manual ls] s).summary =
        String.intercalate "\n" (dropTrailingBlanks ls) ∧
      (get_human_feedback [HumanChoice.manual ls] s).decision = "end" := by
    simp only [get_human_feedback]
    rw [if_pos hls]
    exact ⟨rfl, rfl⟩
  refine ⟨?_, ?_, ?_, hg.1, hg.2, ?_⟩
  · rw [hh]
  · rw [hh]
  · rw [hh]
    exact route_decision_of_end _ rfl
  · exact route_decision_of_end _ hg.2

/-- C8 witness: the round-trip theorem applied with a concrete manual
summary in both interfaces. -/
theorem manual_summary_roundtrip_wit :
    (handle_human_decision (initState "gravity") "manual"
      "My own final summary").summary = "My own final summary" ∧
    (handle_human_decision (initState "gravity") "manual"
      "My own final summary").decision = "end" ∧
    route_decision (handle_human_decision (initState "gravity") "manual"
      "My own final summary") = Route.END ∧
    (get_human_feedback [HumanChoice.manual ["My own final summary"]]
      (initState "gravity")).summary =
      String.intercalate "\n" (dropTrailingBlanks ["My own final summary"]) ∧
    (get_human_feedback [HumanChoice.manual ["My own final summary"]]
      (initState "gravity")).decision = "end" ∧
    route_decision (get_human_feedback [HumanChoice.manual ["My own final summary"]]
      (initState "gravity")) = Route.END :=
  manual_summary_roundtrip (initState "gravity") "My own final summary"
    ["My own final summary"] (by decide) (by decide)

/-- C9: the critic's recommendation is the keyword parse of the lowercased,
stripped model response, and that parse follows the fixed priority order
reresearch, then resummarize, then end, defaulting to resummarize — so
reresearch wins even when end also appears in the response. -/
theorem keyword_priority_parsing (r : String) (s : GraphState)
    (hprev : s.previous_summary = "") :
    (evaluate (some r) s).critic_recommendation =
      parse_llm_decision (toLowerStr (pyStrip r)) ∧
    (∀ d : String,
      (containsStr d "reresearch" = true → parse_llm_decision d = "reresearch") ∧
      (containsStr d "reresearch" = false → containsStr d "resummarize" = true →
        parse_llm_decision d = "resummarize") ∧
      (containsStr d "reresearch" = false → containsStr d "resummarize" = false →
        containsStr d "end" = true → parse_llm_decision d = "end") ∧
      (containsStr d "reresearch" = false → containsStr d "resummarize" = false →
        containsStr d "end" = false → parse_llm_decision d = "resummarize")) := by
  constructor
  · simp [evaluate, hprev]
  · intro d
    refine ⟨?_, ?_, ?_, ?_⟩ <;> intro h1 <;>
      simp [parse_llm_decision, h1] <;> intro h2 <;> simp [h2]

/-- C9 witness: the theorem applied to a response that contains both
reresearch and end; the parse yields reresearch. -/
theorem keyword_priority_parsing_wit :
    (evaluate (some "reresearch although end appears")
      (initState "gravity")).critic_recommendation = "reresearch" ∧
    containsStr (toLowerStr (pyStrip "reresearch although end appears"))
      "end" = true := by
  constructor
  · have h := (keyword_priority_parsing "reresearch although end appears"
      (initState "gravity") rfl).1
    rw [h]
    decide
  · decide

/-- C10 (amended): the research-error placeholders (both the outer-handler
"Research error" form and the fallback "Research encountered" form) and the
minimal-information placeholder are classified error-like for every query
and error text, and on any error-like content a summarize run below the cap
skips generation and produces the fixed low-confidence summary; the
attempt-limit and limited-information placeholders, however, are only
error-like while shorter than 100 characters after stripping. -/
theorem error_placeholders_low_confidence :
    (∀ q e : String, is_error_content (research_error_placeholder q e) = true) ∧
    (∀ q e : String,
      is_error_content (research_difficulties_placeholder q e) = true) ∧
    (∀ q : String, is_error_content (minimal_info_placeholder q) = true) ∧
    (∀ (gens : List (Option String)) (s : GraphState),
      s.summarize_count < 3 → is_error_content s.raw_content = true →
      (summarize gens s).summary = low_confidence_summary s.query) := by
  refine ⟨?_, ?_, ?_, ?_⟩
  · intro q e
    simp only [is_error_content, Bool.or_eq_true]
    refine Or.inl (Or.inl (Or.inl ?_))
    simp only [startsWithStr, research_error_placeholder, data_append_str,
      List.append_assoc]
    exact isPrefixL_append _ _ _ (by decide)
  · intro q e
    simp only [is_error_content, Bool.or_eq_true]
    refine Or.inl (Or.inl (Or.inr ?_))
    simp only [startsWithStr, research_difficulties_placeholder, data_append_str,
      List.append_assoc]
    exact isPrefixL_append _ _ _ (by decide)
  · intro q
    simp only [is_error_content, Bool.or_eq_true]
    refine Or.inl (Or.inr ?_)
    simp only [startsWithStr, minimal_info_placeholder, data_append_str,
      List.append_assoc]
    exact isPrefixL_append _ _ _ (by decide)
  · intro gens s h3 herr
    have hc : ¬(3 < s.summarize_count + 1) := by omega
    simp only [summarize, if_neg hc, if_pos herr]

/-- The sixty-character query used by the C10 counterexample. -/
def long_query : String :=
  "aaaaaaaaaaaaaaaaaaaaaaaaaaaaaaaaaaaaaaaaaaaaaaaaaaaaaaaaaaaa"

/-- A generated candidate summary exceeding the 50-character acceptance
threshold of the summarize retry loop. -/
def sampleGenerated : String :=
  "Gravity is the mutual attraction of masses; it structures planetary orbits."

set_option maxRecDepth 16384 in
/-- C10 counterexample: for a 60-character query the attempt-limit
placeholder is 103 characters long and carries none of the recognised
prefixes, so it is not classified error-like, and the summarize step runs
generation on it instead of producing the fixed low-confidence summary. -/
theorem attempt_limit_not_error_like_cex :
    is_error_content (attempt_limit_placeholder long_query) = false ∧
    (summarize [some sampleGenerated]
      { initState long_query with
          raw_content := attempt_limit_placeholder long_query }).summary =
      sampleGenerated ∧
    sampleGenerated ≠ low_confidence_summary long_query := by
  refine ⟨?_, ?_, ?_⟩ <;> decide

/-- C10 witness: the amended theorem applied to the outer-handler research
error placeholder for the gravity session. -/
theorem error_placeholders_low_confidence_wit :
    is_error_content (research_error_placeholder "gravity" "timeout") = true ∧
    (summarize []
      { initState "gravity" with
          raw_content := research_error_placeholder "gravity" "timeout" }).summary =
      low_confidence_summary "gravity" :=
  ⟨error_placeholders_low_confidence.1 "gravity" "timeout",
   error_placeholders_low_confidence.2.2.2 []
     { initState "gravity" with
         raw_content := research_error_placeholder "gravity" "timeout" }
     (by decide)
     (error_placeholders_low_confidence.1 "gravity" "timeout")⟩
